import Mathlib

/-!
# Verification of `runtests.py` (hachoir test runner)

Shallow embedding of the test-runner script `runtests.py`: directory-based
module loading, discovery of test factories by the `Test` name marker,
include/exclude pattern filtering of the loaded suite, the leak-detecting
test result collector, and the exit-code behaviour of `runtests` in single
and forever mode.
-/

namespace Runtests

/-- Abstract garbage-collected objects (Python object identities). -/
abbrev Obj := Nat

/-- A single test instance; `id` is its fully-qualified test id
(`test.id()` in the source). -/
structure TestCase where
  id : String
  deriving DecidableEq, Repr

/-- A test-case class (a "test factory" in the source's terminology).
`tests` is what `unittest.TestLoader.loadTestsFromTestCase` yields for it. -/
structure TestFactory where
  tests : List TestCase
  deriving DecidableEq, Repr

/-- A loaded Python module: `names` models `set(dir(mod))` (a collection of
distinct attribute names, in some order), `getattr` models `getattr(mod, name)`.
Only attributes that are test factories matter to the script, so the
valuation lands in `TestFactory`. -/
structure PyModule where
  names : List String
  getattr : String → TestFactory

/-- `sub.isPrefixOf l || ...` scan: does `sub` occur contiguously in `l`?
Models Python's substring containment `sub in s`. -/
def listHasInfix (sub : List Char) : List Char → Bool
  | [] => sub.isEmpty
  | c :: rest => sub.isPrefixOf (c :: rest) || listHasInfix sub rest

/-- Python's `'Test' in name` (line 132 of the source). -/
def containsTest (name : String) : Bool :=
  listHasInfix "Test".toList name.toList

/-- Outcome of importing one candidate module
(`load_module(modname, sourcefile)`): it produces a module, raises a
Python SyntaxError (`synError` here), or raises some other exception. -/
inductive LoadOutcome where
  | ok (mod : PyModule)
  | synError
  | otherError (msg : String)

/-- One candidate found by `list_dir`: its computed module name, its source
file path, and what importing it does. -/
structure Candidate where
  modname : String
  sourcefile : String
  outcome : LoadOutcome

/-- Is the import outcome a SyntaxError? -/
def LoadOutcome.isSynError : LoadOutcome → Bool
  | .synError => true
  | _ => false

/-- `load_modules` (lines 101-113): walk the candidates in order, skip the
module named `runtests`, keep successfully imported modules, print a
skip line to stderr for any non-SyntaxError exception and continue, and
let a SyntaxError propagate (modelled as `Except.error ()`).
Returns the loaded `(module, sourcefile)` pairs and the stderr lines. -/
def load_modules : List Candidate → Except Unit (List (PyModule × String) × List String)
  | [] => .ok ([], [])
  | c :: rest =>
    if c.modname = "runtests" then
      load_modules rest
    else
      match c.outcome with
      | .ok mod =>
        match load_modules rest with
        | .ok (mods, errs) => .ok ((mod, c.sourcefile) :: mods, errs)
        | .error e => .error e
      | .synError => .error ()
      | .otherError msg =>
        match load_modules rest with
        | .ok (mods, errs) =>
          .ok (mods, ("Skipping " ++ c.modname ++ ": " ++ msg) :: errs)
        | .error e => .error e

/-- The `(module, sourcefile)` pairs a successful `load_modules` run
returns: the candidates that are not named `runtests` and import cleanly. -/
def okPairs (cands : List Candidate) : List (PyModule × String) :=
  cands.filterMap fun c =>
    if c.modname = "runtests" then none
    else match c.outcome with
      | .ok mod => some (mod, c.sourcefile)
      | _ => none

/-- The stderr skip lines a successful `load_modules` run would print. -/
def skipMessages (cands : List Candidate) : List String :=
  cands.filterMap fun c =>
    if c.modname = "runtests" then none
    else match c.outcome with
      | .otherError msg => some ("Skipping " ++ c.modname ++ ": " ++ msg)
      | _ => none

/-- `TestsFinder.find_available_tests` (lines 124-133): for every loaded
module, collect `getattr(mod, name)` for every `name` in `set(dir(mod))`
with `'Test' in name`. -/
def find_available_tests (mods : List PyModule) : List TestFactory :=
  mods.flatMap fun mod => (mod.names.filter containsTest).map mod.getattr

/-- The `TestsFinder` object: discovered test factories plus the optional
include / exclude regex patterns. -/
structure TestsFinder where
  testsdir : String
  test_factories : List TestFactory
  includes : List String
  excludes : List String

/-- `any(re.search(pat, id) for pat in pats)`; `search` is the regex-search
oracle (`re.search` returning a truthy match object or `None`). -/
def matchesAny (search : String → String → Bool) (pats : List String)
    (id : String) : Bool :=
  pats.any fun pat => search pat id

/-- `TestsFinder.load_tests` (lines 135-155): load the tests of every
factory, keep only include-matching tests when includes are given, then
drop exclude-matching tests when excludes are given, and add the rest to
the suite (modelled as the list of tests in order). -/
def load_tests (search : String → String → Bool) (finder : TestsFinder) :
    List TestCase :=
  finder.test_factories.flatMap fun tf =>
    let tests := tf.tests
    let tests :=
      if !finder.includes.isEmpty then
        tests.filter fun t => matchesAny search finder.includes t.id
      else tests
    let tests :=
      if !finder.excludes.isEmpty then
        tests.filter fun t => !matchesAny search finder.excludes t.id
      else tests
    tests

/-! ## Leak-detecting test result (`TestResult`, lines 158-179)

The test framework drives a result object through `startTest` /
`addSuccess` / `addFailure` / `addError`.  Only `startTest` and
`addSuccess` are overridden by the script; failures and errors go through
the base class, which never touches `gc` or `leaks`.  The garbage
collector is modelled explicitly: `pending` holds uncollectable objects
created but not yet surfaced by a `gc.collect()` call, `garbage` models
`gc.garbage`. -/

/-- The state carried across a test run when `--findleaks` is active. -/
structure ResultState where
  leaks : List (String × List Obj)
  garbage : List Obj
  pending : List Obj
  deriving DecidableEq, Repr

/-- `gc.collect()`: every uncollectable object created so far surfaces in
`gc.garbage`. -/
def gcCollect (s : ResultState) : ResultState :=
  { s with garbage := s.garbage ++ s.pending, pending := [] }

/-- `TestResult.startTest` (lines 164-166): the base-class bookkeeping
(not modelled) followed by `gc.collect()`. -/
def startTest (s : ResultState) : ResultState :=
  gcCollect s

/-- `TestResult.addSuccess` (lines 168-179): base-class bookkeeping, then
`gc.collect()`; if `gc.garbage` is non-empty, record
`(description, gc.garbage[:])` in `leaks` and clear `gc.garbage`. -/
def addSuccess (desc : String) (s : ResultState) : ResultState :=
  let s := gcCollect s
  if s.garbage.isEmpty then s
  else { s with leaks := s.leaks ++ [(desc, s.garbage)], garbage := [] }

/-- One test as the result object sees it: its description
(`getDescription(test)`), whether it passes, and the uncollectable
objects its execution creates. -/
structure TestEvent where
  desc : String
  success : Bool
  produced : List Obj
  deriving DecidableEq, Repr

/-- Run one test against the result state: `startTest`, then the test
body (which creates `e.produced` uncollectable objects), then either
`addSuccess` or the base-class failure/error handler (which leaves the
gc state and `leaks` untouched). -/
def runTest (s : ResultState) (e : TestEvent) : ResultState :=
  let s1 := startTest s
  let s2 := { s1 with pending := s1.pending ++ e.produced }
  if e.success then addSuccess e.desc s2 else s2

/-- Run a sequence of tests through the leak-detecting result object. -/
def runAll (s : ResultState) (evts : List TestEvent) : ResultState :=
  evts.foldl runTest s

/-- The result state before any test has run. -/
def initialState : ResultState :=
  ⟨[], [], []⟩

/-- Every object the state accounts for: recorded leaks, `gc.garbage`,
and not-yet-collected objects. -/
def allObjs (s : ResultState) : List Obj :=
  (s.leaks.flatMap Prod.snd) ++ s.garbage ++ s.pending

/-! ## `runtests` (lines 196-277) -/

/-- Outcome of one `runner.run(tests)` call, as the script consumes it:
the counts behind `result.wasSuccessful()`. -/
structure RunOutcome where
  failures : Nat
  errors : Nat
  deriving DecidableEq, Repr

/-- `result.wasSuccessful()`: no test failed or errored. -/
def RunOutcome.wasSuccessful (r : RunOutcome) : Bool :=
  r.failures == 0 && r.errors == 0

/-- Lines 223-227: `excludes = includes = []`, then the `-x` flag decides
which of the two lists receives `args.pattern`.  Returns
`(includes, excludes)`. -/
def selectPatterns (excludeFlag : Bool) (patterns : List String) :
    List String × List String :=
  if excludeFlag then ([], patterns) else (patterns, [])

/-- The `--forever` loop (lines 257-262): each iteration rebuilds the
suite with `finder.load_tests()` and runs it; the first unsuccessful run
calls `sys.exit(1)`.  `outcomes` is the sequence of run results the
environment produces; the returned list holds the suite built in each
executed iteration, and the exit code is `none` while the loop is still
running after consuming every supplied outcome. -/
def foreverLoop (search : String → String → Bool) (finder : TestsFinder) :
    List RunOutcome → List (List TestCase) × Option Nat
  | [] => ([], none)
  | r :: rest =>
    let suite := load_tests search finder
    if r.wasSuccessful then
      let (suites, code) := foreverLoop search finder rest
      (suite :: suites, code)
    else
      ([suite], some 1)

/-- The environment `runtests` runs in: parsed flags, whether the
`coverage` package imported, whether the tests directory exists, the
candidate modules under it, and the regex-search oracle. -/
structure Env where
  coverageFlag : Bool
  coverageInstalled : Bool
  testsdirIsDir : Bool
  testsdir : String
  excludeFlag : Bool
  patterns : List String
  foreverFlag : Bool
  candidates : List Candidate
  search : String → String → Bool

/-- What a `runtests` invocation does, as far as the claims observe it:
the process exit code (`none` means the forever loop is still running
after the supplied outcomes), whether the usage help was printed, and the
suite built for each executed run. -/
structure RunReport where
  exitCode : Option Nat
  printedUsage : Bool
  suitesRun : List (List TestCase)

/-- `runtests` (lines 196-277).  In order: the coverage-package check
(`sys.exit(1)` when `--coverage` is given but the package is missing),
the tests-directory check (print the message and the usage help, then
`return`, so the process exits with status 0), the include/exclude
selection, the `TestsFinder` construction (whose `__init__` runs
`find_available_tests`, so a SyntaxError from `load_modules` propagates,
modelled as `Except.error ()`), then either the forever loop or a single
run ending in `sys.exit(not result.wasSuccessful())` — exit code 0 when
successful, 1 otherwise.  `outcomes` supplies the result of each
`runner.run` call in order. -/
def runtests (env : Env) (outcomes : List RunOutcome) :
    Except Unit RunReport :=
  if env.coverageFlag && !env.coverageInstalled then
    .ok ⟨some 1, false, []⟩
  else if !env.testsdirIsDir then
    .ok ⟨some 0, true, []⟩
  else
    let (includes, excludes) := selectPatterns env.excludeFlag env.patterns
    match load_modules env.candidates with
    | .error e => .error e
    | .ok (mods, _stderr) =>
      let finder : TestsFinder :=
        ⟨env.testsdir, find_available_tests (mods.map Prod.fst),
          includes, excludes⟩
      if env.foreverFlag then
        let (suites, code) := foreverLoop env.search finder outcomes
        .ok ⟨code, false, suites⟩
      else
        match outcomes with
        | r :: _ =>
          let suite := load_tests env.search finder
          .ok ⟨some (if r.wasSuccessful then 0 else 1), false, [suite]⟩
        | [] => .ok ⟨none, false, []⟩

/-! ## Theorems -/

/-- `wasSuccessful` is true exactly when no test failed or errored. -/
theorem wasSuccessful_iff (r : RunOutcome) :
    r.wasSuccessful = true ↔ r.failures = 0 ∧ r.errors = 0 := by
  simp [RunOutcome.wasSuccessful]

/-- C9: in one run the command-line patterns are all includes or all
excludes, chosen by the `-x` flag: with `-x` the include list is empty
and the patterns become excludes, without it the exclude list is empty
and the patterns become includes; the two filters are never both
active. -/
theorem selectPatterns_exclusive (excludeFlag : Bool) (patterns : List String) :
    ((selectPatterns excludeFlag patterns).1 = [] ∨
      (selectPatterns excludeFlag patterns).2 = []) ∧
    (excludeFlag = true →
      (selectPatterns excludeFlag patterns).1 = [] ∧
      (selectPatterns excludeFlag patterns).2 = patterns) ∧
    (excludeFlag = false →
      (selectPatterns excludeFlag patterns).1 = patterns ∧
      (selectPatterns excludeFlag patterns).2 = []) := by
  cases excludeFlag <;> simp [selectPatterns]

/-- Witness for `selectPatterns_exclusive` at concrete inputs. -/
theorem selectPatterns_exclusive_witness :
    ((selectPatterns true ["a"]).1 = [] ∧
      (selectPatterns true ["a"]).2 = ["a"]) ∧
    ((selectPatterns false ["a"]).1 = ["a"] ∧
      (selectPatterns false ["a"]).2 = []) :=
  ⟨(selectPatterns_exclusive true ["a"]).2.1 rfl,
    (selectPatterns_exclusive false ["a"]).2.2 rfl⟩

/-- C6: when the tests directory does not exist (and the coverage-package
check did not already abort), `runtests` prints the usage help, runs no
tests, and the process terminates with exit status 0. -/
theorem runtests_missing_dir (env : Env) (outcomes : List RunOutcome)
    (hcov : ¬(env.coverageFlag = true ∧ env.coverageInstalled = false))
    (hdir : env.testsdirIsDir = false) :
    runtests env outcomes = .ok ⟨some 0, true, []⟩ := by
  have hc : (env.coverageFlag && !env.coverageInstalled) = false := by
    cases h1 : env.coverageFlag <;> cases h2 : env.coverageInstalled <;>
      simp_all
  simp [runtests, hc, hdir]

/-- An environment with a missing tests directory. -/
def envNoDir : Env :=
  ⟨false, false, false, "tests", false, [], false, [], fun _ _ => false⟩

/-- Witness for `runtests_missing_dir`. -/
theorem runtests_missing_dir_witness :
    runtests envNoDir [] = .ok ⟨some 0, true, []⟩ :=
  runtests_missing_dir envNoDir [] (by simp [envNoDir]) rfl

/-- C1: in a single-pass run that reaches the runner, `runtests` exits
with code 0 exactly when no test failed or errored, and with code 1
exactly when at least one test failed or errored; no other exit code
occurs. -/
theorem runtests_exit_code (env : Env) (r : RunOutcome) (rest : List RunOutcome)
    (mods : List (PyModule × String)) (errlines : List String)
    (hcov : ¬(env.coverageFlag = true ∧ env.coverageInstalled = false))
    (hdir : env.testsdirIsDir = true)
    (hforever : env.foreverFlag = false)
    (hload : load_modules env.candidates = .ok (mods, errlines)) :
    ∃ report, runtests env (r :: rest) = .ok report ∧
      (report.exitCode = some 0 ↔ r.failures = 0 ∧ r.errors = 0) ∧
      (report.exitCode = some 1 ↔ (0 < r.failures ∨ 0 < r.errors)) ∧
      (report.exitCode = some 0 ∨ report.exitCode = some 1) := by
  have hc : (env.coverageFlag && !env.coverageInstalled) = false := by
    cases h1 : env.coverageFlag <;> cases h2 : env.coverageInstalled <;>
      simp_all
  refine ⟨⟨some (if r.wasSuccessful then 0 else 1), false,
    [load_tests env.search
      ⟨env.testsdir, find_available_tests (mods.map Prod.fst),
        (selectPatterns env.excludeFlag env.patterns).1,
        (selectPatterns env.excludeFlag env.patterns).2⟩]⟩, ?_, ?_, ?_, ?_⟩
  · simp [runtests, hc, hdir, hforever, hload]
  · cases hs : r.wasSuccessful <;>
      simp_all [RunOutcome.wasSuccessful, Nat.pos_iff_ne_zero]
  · cases hs : r.wasSuccessful <;>
      simp_all [RunOutcome.wasSuccessful, Nat.pos_iff_ne_zero]
    tauto
  · cases hs : r.wasSuccessful <;> simp

/-- Witness for `runtests_exit_code`: a run with one failure exits 1. -/
theorem runtests_exit_code_witness :
    ∃ report,
      runtests ⟨false, false, true, "tests", false, [], false, [],
          fun _ _ => false⟩ [⟨1, 0⟩] = .ok report ∧
      (report.exitCode = some 0 ↔ (1 : Nat) = 0 ∧ (0 : Nat) = 0) ∧
      (report.exitCode = some 1 ↔ (0 < 1 ∨ (0 : Nat) < 0)) ∧
      (report.exitCode = some 0 ∨ report.exitCode = some 1) :=
  runtests_exit_code
    ⟨false, false, true, "tests", false, [], false, [], fun _ _ => false⟩
    ⟨1, 0⟩ [] [] [] (by simp) rfl rfl rfl

/-- C5: when no candidate module (other than the skipped `runtests`
module) raises a SyntaxError on import, `load_modules` succeeds,
returning every cleanly imported module and one stderr skip line per
module whose import raised any other exception — loading continues past
those; when some candidate raises a SyntaxError, the exception
propagates out of `load_modules` (the run aborts). -/
theorem load_modules_spec (cands : List Candidate) :
    ((∀ c ∈ cands, c.modname ≠ "runtests" → c.outcome.isSynError = false) →
      load_modules cands = .ok (okPairs cands, skipMessages cands)) ∧
    ((∃ c ∈ cands, c.modname ≠ "runtests" ∧ c.outcome.isSynError = true) →
      load_modules cands = .error ()) := by
  induction cands with
  | nil => simp [load_modules, okPairs, skipMessages]
  | cons c rest ih =>
    by_cases hm : c.modname = "runtests"
    · constructor
      · intro h
        have h1 := (ih.1 fun d hd => h d (List.mem_cons_of_mem c hd))
        simp [load_modules, okPairs, skipMessages, hm, h1]
      · intro ⟨d, hd, hd1, hd2⟩
        rcases List.mem_cons.1 hd with h | h
        · exact absurd (h ▸ hm) hd1
        · simp [load_modules, hm, ih.2 ⟨d, h, hd1, hd2⟩]
    · cases ho : c.outcome with
      | ok mod =>
        constructor
        · intro h
          have h1 := (ih.1 fun d hd => h d (List.mem_cons_of_mem c hd))
          simp [load_modules, okPairs, skipMessages, hm, ho, h1]
        · intro ⟨d, hd, hd1, hd2⟩
          rcases List.mem_cons.1 hd with h | h
          · rw [h, ho] at hd2; exact absurd hd2 (by simp [LoadOutcome.isSynError])
          · simp [load_modules, hm, ho, ih.2 ⟨d, h, hd1, hd2⟩]
      | synError =>
        constructor
        · intro h
          have := h c (List.mem_cons_self c rest) hm
          rw [ho] at this
          exact absurd this (by simp [LoadOutcome.isSynError])
        · intro _
          simp [load_modules, hm, ho]
      | otherError msg =>
        constructor
        · intro h
          have h1 := (ih.1 fun d hd => h d (List.mem_cons_of_mem c hd))
          simp [load_modules, okPairs, skipMessages, hm, ho, h1]
        · intro ⟨d, hd, hd1, hd2⟩
          rcases List.mem_cons.1 hd with h | h
          · rw [h, ho] at hd2; exact absurd hd2 (by simp [LoadOutcome.isSynError])
          · simp [load_modules, hm, ho, ih.2 ⟨d, h, hd1, hd2⟩]

/-- Witness for `load_modules_spec`: one clean module, one failing
import, and a `runtests` candidate, with no SyntaxError. -/
theorem load_modules_spec_witness :
    load_modules
      [⟨"test_a", "tests/test_a.py", .ok ⟨[], fun _ => ⟨[]⟩⟩⟩,
        ⟨"test_b", "tests/test_b.py", .otherError "boom"⟩,
        ⟨"runtests", "tests/runtests.py", .synError⟩] =
      .ok ([(⟨[], fun _ => ⟨[]⟩⟩, "tests/test_a.py")],
        ["Skipping test_b: boom"]) := by
  have h := (load_modules_spec
    [⟨"test_a", "tests/test_a.py", .ok ⟨[], fun _ => ⟨[]⟩⟩⟩,
      ⟨"test_b", "tests/test_b.py", .otherError "boom"⟩,
      ⟨"runtests", "tests/runtests.py", .synError⟩]).1
    (by decide)
  rw [h]
  rfl

/-- C2: with a non-empty include-pattern list (and no exclude patterns,
which is how `runtests` ever configures includes), `load_tests` returns
exactly the discovered test instances whose fully-qualified id matches
at least one include pattern by regex search; a test matching no include
pattern is excluded. -/
theorem load_tests_includes (search : String → String → Bool)
    (finder : TestsFinder) (t : TestCase)
    (hinc : finder.includes ≠ []) (hexc : finder.excludes = []) :
    t ∈ load_tests search finder ↔
      ((∃ tf ∈ finder.test_factories, t ∈ tf.tests) ∧
        matchesAny search finder.includes t.id = true) := by
  have h1 : finder.includes.isEmpty = false := by
    simpa [List.isEmpty_iff] using hinc
  simp [load_tests, hexc, h1, List.mem_flatMap, List.mem_filter]
  tauto

/-- Witness for `load_tests_includes`: a finder with one include pattern
keeps the matching test and drops the other. -/
theorem load_tests_includes_witness :
    ((⟨"a.TestX.t1"⟩ : TestCase) ∈
      load_tests (fun pat id => listHasInfix pat.toList id.toList)
        ⟨"tests", [⟨[⟨"a.TestX.t1"⟩, ⟨"a.TestX.t2"⟩]⟩], ["t1"], []⟩ ↔
      ((∃ tf ∈ [(⟨[⟨"a.TestX.t1"⟩, ⟨"a.TestX.t2"⟩]⟩ : TestFactory)],
          (⟨"a.TestX.t1"⟩ : TestCase) ∈ tf.tests) ∧
        matchesAny (fun pat id => listHasInfix pat.toList id.toList)
          ["t1"] "a.TestX.t1" = true)) :=
  load_tests_includes (fun pat id => listHasInfix pat.toList id.toList)
    ⟨"tests", [⟨[⟨"a.TestX.t1"⟩, ⟨"a.TestX.t2"⟩]⟩], ["t1"], []⟩
    ⟨"a.TestX.t1"⟩ (by simp) rfl

/-- C3: with a non-empty exclude-pattern list (and no include patterns,
which is how `runtests` ever configures excludes), `load_tests` removes
exactly the tests whose fully-qualified id matches some exclude pattern
by regex search, and keeps every discovered test whose id matches none
of them. -/
theorem load_tests_excludes (search : String → String → Bool)
    (finder : TestsFinder) (t : TestCase)
    (hexc : finder.excludes ≠ []) (hinc : finder.includes = []) :
    t ∈ load_tests search finder ↔
      ((∃ tf ∈ finder.test_factories, t ∈ tf.tests) ∧
        matchesAny search finder.excludes t.id = false) := by
  have h1 : finder.excludes.isEmpty = false := by
    simpa [List.isEmpty_iff] using hexc
  simp [load_tests, hinc, h1, List.mem_flatMap, List.mem_filter]
  tauto

/-- Witness for `load_tests_excludes`: a finder with one exclude pattern
keeps the non-matching test. -/
theorem load_tests_excludes_witness :
    ((⟨"a.TestX.t2"⟩ : TestCase) ∈
      load_tests (fun pat id => listHasInfix pat.toList id.toList)
        ⟨"tests", [⟨[⟨"a.TestX.t1"⟩, ⟨"a.TestX.t2"⟩]⟩], [], ["t1"]⟩ ↔
      ((∃ tf ∈ [(⟨[⟨"a.TestX.t1"⟩, ⟨"a.TestX.t2"⟩]⟩ : TestFactory)],
          (⟨"a.TestX.t2"⟩ : TestCase) ∈ tf.tests) ∧
        matchesAny (fun pat id => listHasInfix pat.toList id.toList)
          ["t1"] "a.TestX.t2" = false)) :=
  load_tests_excludes (fun pat id => listHasInfix pat.toList id.toList)
    ⟨"tests", [⟨[⟨"a.TestX.t1"⟩, ⟨"a.TestX.t2"⟩]⟩], [], ["t1"]⟩
    ⟨"a.TestX.t2"⟩ (by simp) rfl

/-- C4: over modules whose attribute-name collections are duplicate-free
(`set(dir(mod))`) and that follow the test-module convention — within a
module, distinct `Test`-marked names hold distinct symbols, and no
`Test`-marked symbol is shared between two modules — discovery collects
every symbol whose name contains `Test`, and no symbol appears twice in
the collected list of test factories. -/
theorem find_available_tests_spec (mods : List PyModule)
    (hnodup : ∀ mod ∈ mods, mod.names.Nodup)
    (hinj : ∀ mod ∈ mods, ∀ n1 ∈ mod.names, ∀ n2 ∈ mod.names,
      containsTest n1 = true → containsTest n2 = true →
      mod.getattr n1 = mod.getattr n2 → n1 = n2)
    (hdisj : mods.Pairwise fun m1 m2 => ∀ n1 ∈ m1.names, ∀ n2 ∈ m2.names,
      containsTest n1 = true → containsTest n2 = true →
      m1.getattr n1 ≠ m2.getattr n2) :
    (∀ mod ∈ mods, ∀ name ∈ mod.names, containsTest name = true →
      mod.getattr name ∈ find_available_tests mods) ∧
    (find_available_tests mods).Nodup := by
  constructor
  · intro mod hmod name hname hmark
    simp only [find_available_tests, List.mem_flatMap, List.mem_map,
      List.mem_filter]
    exact ⟨mod, hmod, name, ⟨hname, hmark⟩, rfl⟩
  · rw [find_available_tests, List.nodup_flatMap]
    constructor
    · intro mod hmod
      refine List.Nodup.map_on ?_ ((hnodup mod hmod).filter _)
      intro n1 hn1 n2 hn2 heq
      rw [List.mem_filter] at hn1 hn2
      exact hinj mod hmod n1 hn1.1 n2 hn2.1 hn1.2 hn2.2 heq
    · refine hdisj.imp ?_
      intro m1 m2 h
      rw [Function.onFun, List.disjoint_left]
      rintro tf htf1 htf2
      simp only [List.mem_map, List.mem_filter] at htf1 htf2
      obtain ⟨n1, ⟨hn1, hc1⟩, he1⟩ := htf1
      obtain ⟨n2, ⟨hn2, hc2⟩, he2⟩ := htf2
      exact h n1 hn1 n2 hn2 hc1 hc2 (he1.trans he2.symm)

/-- A concrete test module holding `TestA` and a helper. -/
def modA : PyModule :=
  ⟨["TestA", "helper"], fun n => ⟨[⟨"test_a." ++ n ++ ".t"⟩]⟩⟩

/-- A concrete test module holding `TestB`. -/
def modB : PyModule :=
  ⟨["TestB"], fun n => ⟨[⟨"test_b." ++ n ++ ".t"⟩]⟩⟩

/-- Witness for `find_available_tests_spec` on two concrete modules. -/
theorem find_available_tests_spec_witness :
    (⟨[⟨"test_a.TestA.t"⟩]⟩ : TestFactory) ∈
      find_available_tests [modA, modB] ∧
    (find_available_tests [modA, modB]).Nodup := by
  have h := find_available_tests_spec [modA, modB]
    (by decide) (by decide) (by decide)
  exact ⟨h.1 modA (List.mem_cons_self modA [modB]) "TestA"
    (by decide) (by decide), h.2⟩

/-- C7 counterexample: a single test that fails while creating an
uncollectable object.  The test completes, the object is never reclaimed
(it is still pending, unsurfaced, after the run), yet no leak entry is
recorded — leak tracking does not happen regardless of the test's
outcome. -/
theorem leak_tracking_not_outcome_blind :
    (runAll initialState [⟨"testA (tests.test_x.TestX)", false, [7]⟩]).leaks
      = [] ∧
    (runAll initialState
      [⟨"testA (tests.test_x.TestX)", false, [7]⟩]).pending = [7] ∧
    ([7] : List Obj) ≠ [] := by
  refine ⟨rfl, rfl, by simp⟩

/-- C7 as amended: with leak detection enabled, the garbage collector is
inspected only in `addSuccess`: a test that passes and whose
post-collection `gc.garbage` is non-empty gets a leak entry (its
description plus the garbage seen, which may include carry-over from
earlier non-passing tests); a test that fails or errors records
nothing. -/
theorem leak_tracking_on_success (s : ResultState) (e : TestEvent) :
    (e.success = true →
      (runTest s e).leaks =
        (if (s.garbage ++ s.pending ++ e.produced).isEmpty then s.leaks
         else s.leaks ++ [(e.desc, s.garbage ++ s.pending ++ e.produced)])) ∧
    (e.success = false → (runTest s e).leaks = s.leaks) := by
  constructor
  · intro hs
    simp [runTest, startTest, gcCollect, addSuccess, hs, List.append_assoc]
    split <;> simp
  · intro hs
    simp [runTest, startTest, gcCollect, hs]

/-- Witness for `leak_tracking_on_success`: a passing test with one
uncollectable object records it; a failing one records nothing. -/
theorem leak_tracking_on_success_witness :
    ((runTest initialState ⟨"tA", true, [5]⟩).leaks =
      (if (([] : List Obj) ++ [] ++ [5]).isEmpty then ([] : List (String × List Obj))
       else [] ++ [("tA", ([] : List Obj) ++ [] ++ [5])])) ∧
    (runTest initialState ⟨"tB", false, [5]⟩).leaks = [] :=
  ⟨(leak_tracking_on_success initialState ⟨"tA", true, [5]⟩).1 rfl,
    (leak_tracking_on_success initialState ⟨"tB", false, [5]⟩).2 rfl⟩

/-- Running one test adds exactly its uncollectable objects to the
objects the state accounts for. -/
theorem allObjs_runTest (s : ResultState) (e : TestEvent) :
    allObjs (runTest s e) = allObjs s ++ e.produced := by
  cases he : e.success <;>
    simp [runTest, startTest, gcCollect, addSuccess, allObjs, he,
      List.append_assoc]
  split <;> simp_all [List.append_assoc]

/-- Running a sequence of tests accounts exactly for the initial objects
plus everything the tests created. -/
theorem allObjs_runAll (s : ResultState) (evts : List TestEvent) :
    allObjs (runAll s evts) = allObjs s ++ evts.flatMap TestEvent.produced := by
  induction evts generalizing s with
  | nil => simp [runAll]
  | cons e rest ih =>
    simp [runAll] at ih ⊢
    rw [ih, allObjs_runTest, List.append_assoc]

/-- C10: a successful test leaves `gc.garbage` empty (whatever was there
was either nothing or got recorded and cleared), and — since distinct
uncollectable objects are distinct — over a whole run from the initial
state no object appears in two recorded leak entries, so none is
re-attributed to a later test. -/
theorem leaks_record_each_object_once (evts : List TestEvent)
    (hfresh : (evts.flatMap TestEvent.produced).Nodup) :
    (∀ s : ResultState, ∀ e : TestEvent, e.success = true →
      (runTest s e).garbage = []) ∧
    ((runAll initialState evts).leaks.flatMap Prod.snd).Nodup := by
  constructor
  · intro s e hs
    simp [runTest, startTest, gcCollect, addSuccess, hs]
    split <;> simp_all [List.isEmpty_iff]
  · have h := allObjs_runAll initialState evts
    have hi : allObjs initialState = [] := rfl
    rw [hi, List.nil_append] at h
    have : (allObjs (runAll initialState evts)).Nodup := h ▸ hfresh
    rw [allObjs] at this
    exact this.of_append_left.of_append_left

/-- Witness for `leaks_record_each_object_once` on a concrete run: a
passing leaky test, then a failing leaky test, then a passing clean test
that inherits the failing test's garbage. -/
theorem leaks_record_each_object_once_witness :
    ((runTest initialState ⟨"tA", true, [5]⟩).garbage = []) ∧
    ((runAll initialState
      [⟨"t1", true, [1]⟩, ⟨"t2", false, [2]⟩, ⟨"t3", true, []⟩]).leaks.flatMap
        Prod.snd).Nodup := by
  have h := leaks_record_each_object_once
    [⟨"t1", true, [1]⟩, ⟨"t2", false, [2]⟩, ⟨"t3", true, []⟩] (by decide)
  exact ⟨h.1 initialState ⟨"tA", true, [5]⟩ rfl, h.2⟩

/-- While every run is successful, the forever loop rebuilds the suite
each iteration and never exits. -/
theorem foreverLoop_all_success (search : String → String → Bool)
    (finder : TestsFinder) (outcomes : List RunOutcome)
    (h : ∀ r ∈ outcomes, r.wasSuccessful = true) :
    foreverLoop search finder outcomes =
      (List.replicate outcomes.length (load_tests search finder), none) := by
  induction outcomes with
  | nil => simp [foreverLoop]
  | cons r rest ih =>
    have hr := h r (List.mem_cons_self r rest)
    simp [foreverLoop, hr,
      ih fun q hq => h q (List.mem_cons_of_mem r hq), List.replicate_succ]

/-- The first unsuccessful run stops the forever loop with exit code 1,
after one suite rebuild per executed iteration. -/
theorem foreverLoop_first_failure (search : String → String → Bool)
    (finder : TestsFinder) (pre : List RunOutcome) (r : RunOutcome)
    (post : List RunOutcome)
    (hpre : ∀ q ∈ pre, q.wasSuccessful = true)
    (hr : r.wasSuccessful = false) :
    foreverLoop search finder (pre ++ r :: post) =
      (List.replicate (pre.length + 1) (load_tests search finder), some 1) := by
  induction pre with
  | nil => simp [foreverLoop, hr]
  | cons q rest ih =>
    have hq := hpre q (List.mem_cons_self q rest)
    simp [foreverLoop, hq,
      ih fun p hp => hpre p (List.mem_cons_of_mem q hp), List.replicate_succ]

/-- C8: in forever mode, each loop iteration rebuilds the suite from the
discovered test factories via `load_tests` and runs it; the loop goes on
(no exit) while every run is successful, and the first unsuccessful run
terminates the process with exit code 1. -/
theorem runtests_forever (env : Env) (outcomes : List RunOutcome)
    (mods : List (PyModule × String)) (errlines : List String)
    (hcov : ¬(env.coverageFlag = true ∧ env.coverageInstalled = false))
    (hdir : env.testsdirIsDir = true)
    (hforever : env.foreverFlag = true)
    (hload : load_modules env.candidates = .ok (mods, errlines)) :
    ((∀ r ∈ outcomes, r.wasSuccessful = true) →
      runtests env outcomes = .ok
        ⟨none, false, List.replicate outcomes.length (load_tests env.search
          ⟨env.testsdir, find_available_tests (mods.map Prod.fst),
            (selectPatterns env.excludeFlag env.patterns).1,
            (selectPatterns env.excludeFlag env.patterns).2⟩)⟩) ∧
    (∀ pre r post, outcomes = pre ++ r :: post →
      (∀ q ∈ pre, q.wasSuccessful = true) → r.wasSuccessful = false →
      runtests env outcomes = .ok
        ⟨some 1, false, List.replicate (pre.length + 1) (load_tests env.search
          ⟨env.testsdir, find_available_tests (mods.map Prod.fst),
            (selectPatterns env.excludeFlag env.patterns).1,
            (selectPatterns env.excludeFlag env.patterns).2⟩)⟩) := by
  have hc : (env.coverageFlag && !env.coverageInstalled) = false := by
    cases h1 : env.coverageFlag <;> cases h2 : env.coverageInstalled <;>
      simp_all
  constructor
  · intro h
    have hf := foreverLoop_all_success env.search
      ⟨env.testsdir, find_available_tests (mods.map Prod.fst),
        (selectPatterns env.excludeFlag env.patterns).1,
        (selectPatterns env.excludeFlag env.patterns).2⟩ outcomes h
    simp [runtests, hc, hdir, hforever, hload, hf]
  · intro pre r post hsplit hpre hr
    have hf := foreverLoop_first_failure env.search
      ⟨env.testsdir, find_available_tests (mods.map Prod.fst),
        (selectPatterns env.excludeFlag env.patterns).1,
        (selectPatterns env.excludeFlag env.patterns).2⟩ pre r post hpre hr
    rw [hsplit]
    simp [runtests, hc, hdir, hforever, hload, hf]

/-- Witness for `runtests_forever`: two successful runs then a failing
one stop the loop with exit code 1 after three iterations. -/
theorem runtests_forever_witness :
    runtests
      ⟨false, false, true, "tests", false, [], true, [], fun _ _ => false⟩
      [⟨0, 0⟩, ⟨0, 0⟩, ⟨2, 1⟩] = .ok
      ⟨some 1, false, List.replicate 3 (load_tests (fun _ _ => false)
        ⟨"tests", find_available_tests (([] : List (PyModule × String)).map Prod.fst),
          (selectPatterns false []).1, (selectPatterns false []).2⟩)⟩ :=
  (runtests_forever
    ⟨false, false, true, "tests", false, [], true, [], fun _ _ => false⟩
    [⟨0, 0⟩, ⟨0, 0⟩, ⟨2, 1⟩] [] [] (by simp) rfl rfl rfl).2
    [⟨0, 0⟩, ⟨0, 0⟩] ⟨2, 1⟩ [] rfl (by decide) rfl

end Runtests
